import Mathlib

/-!
Shallow embedding of the webhook-to-analytics routing server
(`webhooks/route_to_segment/segment_routing_server.go`, final iteration).

The server decodes inbound webhook JSON payloads, classifies the event type
against a fixed table, and forwards a Track call to a downstream analytics
service.  We embed the decoded data model (Go `interface\x7b\x7d` values become a
`Json` inductive, Go maps become association lists), the `Webhook` envelope
with its defaulting methods, and the two HTTP handlers (`/webhook` legacy
handler and the generic `handle` used by `/webhook/identify` and
`/webhook/track`).

External collaborators are modelled as explicit inputs:
* JSON decoding of the raw body (`encoding/json`) enters as a
  `Except Unit (Option Webhook)` argument (error, or a possibly-nil pointer —
  Go decodes the body `null` to a nil `*Webhook` without error);
* `time.Unix(sec, 0).Format(time.RFC3339)` and
  `time.Now().Format(time.RFC3339)` enter as the arguments `fmtUnix` and
  `nowRFC3339`;
* the result of the downstream send enters as a `Except String Unit` argument.

Go panics (nil-pointer dereference, failed type assertion) are a distinct
handler outcome, since they never produce the normal HTTP response.
-/

namespace RouteToSegment

/-- A decoded JSON value, modelling what Go's `encoding/json` stores in an
`interface\x7b\x7d`: `null` becomes a nil interface, objects become
`map[string]interface\x7b\x7d`, which we model as an association list. -/
inductive Json where
  | null : Json
  | bool (b : Bool) : Json
  | num (q : Int) : Json
  | str (s : String) : Json
  | arr (elems : List Json) : Json
  | obj (fields : List (String × Json)) : Json

/-- Go map read `m[k]`: the zero value (nil interface, i.e. `Json.null`) when
the key is absent.  A stored JSON `null` is also a nil interface, so both
`m["k"] == nil` cases of the Go code collapse onto `Json.null` here. -/
def lookupKey (m : List (String × Json)) (k : String) : Json :=
  match m.find? (fun p => p.1 == k) with
  | some p => p.2
  | none => Json.null

/-- Go `delete(m, k)`: remove the key from the map. -/
def deleteKey (m : List (String × Json)) (k : String) : List (String × Json) :=
  m.filter (fun p => p.1 != k)

/-- The `ConfigEnv` struct: per-environment downstream write credential. -/
structure ConfigEnv where
  SegmentWriteKey : String

/-- The `Config` struct: mapping from environment name to credentials. -/
structure Config where
  Envs : List (String × ConfigEnv)

/-- Go map lookup `config.Envs[env]` with its `ok` flag. -/
def Config.lookupEnv (c : Config) (env : String) : Option ConfigEnv :=
  (c.Envs.find? (fun p => p.1 == env)).map (fun p => p.2)

/-- The decoded `Webhook` struct of the legacy route.  Pointer-typed fields
(`*string`, `*int`) become `Option`; `Data` is the decoded
`map[string]interface\x7b\x7d`. -/
structure Webhook where
  EventSourceNil : Option String
  EventType : String
  EventID : String
  TimestampNil : Option Int
  TimestampIsoNil : Option String
  Data : List (String × Json)

/-- `Webhook.EventSource`: the event source, defaulting to `"customerio"`. -/
def Webhook.EventSource (w : Webhook) : String :=
  match w.EventSourceNil with
  | some s => s
  | none => "customerio"

/-- `Webhook.TimestampRFC3339`: resolve the outbound timestamp.  The epoch
field wins, then the ISO string passes through unchanged, else the current
wall-clock time.  `fmtUnix` models `time.Unix(sec, 0).Format(time.RFC3339)`
and `nowRFC3339` models `time.Now().Format(time.RFC3339)`. -/
def Webhook.TimestampRFC3339 (fmtUnix : Int → String) (nowRFC3339 : String)
    (w : Webhook) : String :=
  match w.TimestampNil with
  | some ts => fmtUnix ts
  | none =>
    match w.TimestampIsoNil with
    | some ts => ts
    | none => nowRFC3339

/-- The outbound `analytics.Track` payload built by the legacy handler:
`UserId`, `Event`, `Properties`, the `event_id` placed in `Context`, and the
`Timestamp` of the message. -/
structure TrackPayload where
  UserId : String
  Event : String
  Properties : List (String × Json)
  ContextEventId : String
  Timestamp : String

/-- Outcome of the legacy handler: an HTTP response (status, body, and the
outbound Track call issued while producing it, if any), or a Go panic. -/
inductive HandlerResult where
  | response (status : Nat) (body : String) (sent : Option TrackPayload) : HandlerResult
  | panicked (msg : String) : HandlerResult

/-- Go `%#v` rendering of a string value (as used in the unknown-environment
message): the string surrounded by double quotes. -/
def goQuote (s : String) : String := "\"" ++ s ++ "\""

/-- Lines 216-235 of the legacy handler: build the Track payload, send it via
the client, and answer 500 on failure or 200 `"ok"` on success.  The call is
recorded as issued in both cases. -/
def trackAndRespond (sendResult : Except String Unit) (tp : TrackPayload) :
    HandlerResult :=
  match sendResult with
  | Except.error e => HandlerResult.response 500 ("segment.Track failed: " ++ e) (some tp)
  | Except.ok _ => HandlerResult.response 200 "ok" (some tp)

/-- The legacy `/webhook` handler (lines 142-241): resolve the environment,
decode the body, strip `variables`, validate `data.customer_id`, classify the
event type through the fixed if/else table (four types suppressed with an
immediate 200, six renamed, everything else forwarded with the raw event type
as the name), and send the Track call. -/
def webhookHandler (config : Config) (env : String)
    (decoded : Except Unit (Option Webhook))
    (fmtUnix : Int → String) (nowRFC3339 : String)
    (sendResult : Except String Unit) : HandlerResult :=
  match config.lookupEnv env with
  | none =>
    HandlerResult.response 400 ("Environment " ++ goQuote env ++ " does not exist") none
  | some _envConfig =>
    match decoded with
    | Except.error _ => HandlerResult.response 406 "bad request" none
    | Except.ok none =>
      HandlerResult.panicked "invalid memory address or nil pointer dereference"
    | Except.ok (some webhook) =>
      let data := deleteKey webhook.Data "variables"
      match lookupKey data "customer_id" with
      | Json.null => HandlerResult.response 406 "data.customer_id is nil" none
      | Json.str customerID =>
        let webhookEventType := webhook.EventType
        let send (eventType : String) : HandlerResult :=
          trackAndRespond sendResult
            ⟨customerID, eventType, data, webhook.EventID,
              Webhook.TimestampRFC3339 fmtUnix nowRFC3339 webhook⟩
        if webhookEventType = "customer_unsubscribed" then
          send "Email - unsubscribed"
        else if webhookEventType = "email_converted" then
          HandlerResult.response 200 "ok" none
        else if webhookEventType = "email_drafted" then
          HandlerResult.response 200 "ok" none
        else if webhookEventType = "email_dropped" then
          HandlerResult.response 200 "ok" none
        else if webhookEventType = "email_delivered" then
          HandlerResult.response 200 "ok" none
        else if webhookEventType = "email_bounced" then
          send "Email - email failed"
        else if webhookEventType = "email_failed" then
          send "Email - email failed"
        else if webhookEventType = "email_spammed" then
          send "Email - email failed"
        else if webhookEventType = "email_sent" then
          send "Email - email sent"
        else if webhookEventType = "email_opened" then
          send "Email - opened email"
        else if webhookEventType = "email_clicked" then
          send "Email - clicked email"
        else
          send webhookEventType
      | _ => HandlerResult.panicked "interface conversion: interface is not string"

/-- Outcome of the generic `handle` function: status, body, and the payload
handed to `action.Send`, if the send was reached. -/
structure HandleOutcome (α : Type) where
  status : Nat
  body : String
  sent : Option α

/-- The generic `handle` function (lines 92-130) used by `/webhook/identify`
and `/webhook/track`: resolve the environment, unmarshal the body into the
action's own payload shape, and send it, answering 400 / 406 / 500 / 200
exactly as the legacy route does (with the `action.Send failed` message). -/
def handle {α : Type} (config : Config) (env : String)
    (decoded : Except Unit α) (sendResult : Except String Unit) :
    HandleOutcome α :=
  match config.lookupEnv env with
  | none =>
    ⟨400, "Environment " ++ goQuote env ++ " does not exist", none⟩
  | some _envConfig =>
    match decoded with
    | Except.error _ => ⟨406, "bad request", none⟩
    | Except.ok payload =>
      match sendResult with
      | Except.error e => ⟨500, "action.Send failed: " ++ e, some payload⟩
      | Except.ok _ => ⟨200, "ok", some payload⟩

/-- The payload shape of the `Track` action registered on `/webhook/track`
(the library's `analytics.Track` struct, fields relevant to the spec). -/
structure AnalyticsTrack where
  UserId : String
  Event : String
  Properties : List (String × Json)

/-- The four event types the legacy handler suppresses (200 with no send). -/
def suppressedTypes : List String :=
  ["email_converted", "email_drafted", "email_dropped", "email_delivered"]

/-- The eleven event types appearing in the classifier's if/else table. -/
def classifiedTypes : List String :=
  ["customer_unsubscribed", "email_converted", "email_drafted", "email_dropped",
   "email_delivered", "email_bounced", "email_failed", "email_spammed",
   "email_sent", "email_opened", "email_clicked"]

/-- The renaming half of the classifier table: raw event type paired with the
outbound event name the handler substitutes for it. -/
def renamedTypes : List (String × String) :=
  [("customer_unsubscribed", "Email - unsubscribed"),
   ("email_bounced", "Email - email failed"),
   ("email_failed", "Email - email failed"),
   ("email_spammed", "Email - email failed"),
   ("email_sent", "Email - email sent"),
   ("email_opened", "Email - opened email"),
   ("email_clicked", "Email - clicked email")]

/-! ### RFC3339 validity

The spec's invariant "`timestampRFC3339` is always a valid RFC3339 string"
needs a validity predicate.  `isRFC3339` implements the `date-time` grammar of
RFC 3339 section 5.6: `full-date "T" full-time`, with calendar-valid month and
day, a 24-hour clock (leap second 60 allowed), an optional fraction, and a
`Z` or `±hh:mm` offset. -/

/-- Parse exactly two decimal digits, returning their value and the rest. -/
def digits2 : List Char → Option (Nat × List Char)
  | c1 :: c2 :: rest =>
    if c1.isDigit && c2.isDigit then
      some ((c1.toNat - 48) * 10 + (c2.toNat - 48), rest)
    else
      none
  | _ => none

/-- Parse exactly four decimal digits. -/
def digits4 (cs : List Char) : Option (Nat × List Char) := do
  let (hi, cs) ← digits2 cs
  let (lo, cs) ← digits2 cs
  pure (hi * 100 + lo, cs)

/-- Consume one expected character. -/
def expectChar (c : Char) : List Char → Option (List Char)
  | d :: rest => if d = c then some rest else none
  | [] => none

/-- Gregorian leap-year rule. -/
def isLeapYear (y : Nat) : Bool :=
  (y % 4 == 0 && y % 100 != 0) || y % 400 == 0

/-- Number of days in a month of a given year. -/
def daysInMonth (y m : Nat) : Nat :=
  if m = 2 then (if isLeapYear y then 29 else 28)
  else if m = 4 ∨ m = 6 ∨ m = 9 ∨ m = 11 then 30
  else 31

/-- Drop a maximal run of leading digits. -/
def skipDigits : List Char → List Char
  | c :: rest => if c.isDigit then skipDigits rest else c :: rest
  | [] => []

/-- The date/time separator: `T` (lowercase permitted by RFC 3339). -/
def expectSep : List Char → Option (List Char)
  | 'T' :: rest => some rest
  | 't' :: rest => some rest
  | _ => none

/-- An optional `time-secfrac`: a dot followed by one or more digits. -/
def parseFrac : List Char → Option (List Char)
  | '.' :: c :: rest => if c.isDigit then some (skipDigits rest) else none
  | cs => some cs

/-- A `time-offset`: `Z` (either case) or a signed `hh:mm` offset. -/
def parseOffset : List Char → Option (List Char)
  | 'Z' :: rest => some rest
  | 'z' :: rest => some rest
  | c :: rest =>
    if c = '+' ∨ c = '-' then do
      let (h, cs) ← digits2 rest
      let cs ← expectChar ':' cs
      let (m, cs) ← digits2 cs
      if h ≤ 23 ∧ m ≤ 59 then some cs else none
    else
      none
  | [] => none

/-- Parse a complete RFC 3339 `date-time`, succeeding only when the whole
input is consumed. -/
def parseRFC3339 (cs : List Char) : Option Unit := do
  let (y, cs) ← digits4 cs
  let cs ← expectChar '-' cs
  let (mo, cs) ← digits2 cs
  let cs ← expectChar '-' cs
  let (d, cs) ← digits2 cs
  guard (1 ≤ mo ∧ mo ≤ 12 ∧ 1 ≤ d ∧ d ≤ daysInMonth y mo)
  let cs ← expectSep cs
  let (h, cs) ← digits2 cs
  let cs ← expectChar ':' cs
  let (mi, cs) ← digits2 cs
  let cs ← expectChar ':' cs
  let (sec, cs) ← digits2 cs
  guard (h ≤ 23 ∧ mi ≤ 59 ∧ sec ≤ 60)
  let cs ← parseFrac cs
  let cs ← parseOffset cs
  guard (cs = [])

/-- `isRFC3339 s` holds when `s` is a valid RFC 3339 `date-time` string. -/
def isRFC3339 (s : String) : Bool :=
  (parseRFC3339 s.toList).isSome

/-- The HTTP status and body of a handler outcome; `none` when the handler
panicked and produced no response at all. -/
def HandlerResult.statusBody : HandlerResult → Option (Nat × String)
  | HandlerResult.response st b _ => some (st, b)
  | HandlerResult.panicked _ => none

/-! ### Theorems -/

/-- Helper: with a known environment and a string `data.customer_id`, the
legacy handler either suppresses the event (one of the four suppressed types,
200 "ok", nothing sent) or hands some event name to `trackAndRespond`
together with the customer id, the stripped data, the event id and the
resolved timestamp. -/
theorem webhookHandler_classified
    (config : Config) (env : String) (envConfig : ConfigEnv) (w : Webhook)
    (cid : String) (fmtUnix : Int → String) (nowRFC3339 : String)
    (sendResult : Except String Unit)
    (henv : config.lookupEnv env = some envConfig)
    (hcid : lookupKey (deleteKey w.Data "variables") "customer_id" = Json.str cid) :
    (w.EventType ∈ suppressedTypes ∧
      webhookHandler config env (Except.ok (some w)) fmtUnix nowRFC3339 sendResult =
        HandlerResult.response 200 "ok" none)
    ∨ (w.EventType ∉ suppressedTypes ∧ ∃ evName,
        webhookHandler config env (Except.ok (some w)) fmtUnix nowRFC3339 sendResult =
          trackAndRespond sendResult
            ⟨cid, evName, deleteKey w.Data "variables", w.EventID,
              Webhook.TimestampRFC3339 fmtUnix nowRFC3339 w⟩) := by
  by_cases h1 : w.EventType = "customer_unsubscribed"
  · exact Or.inr ⟨by simp [suppressedTypes, h1], "Email - unsubscribed",
      by simp [webhookHandler, henv, hcid, h1]⟩
  by_cases h2 : w.EventType = "email_converted"
  · exact Or.inl ⟨by simp [suppressedTypes, h2],
      by simp [webhookHandler, henv, hcid, h1, h2]⟩
  by_cases h3 : w.EventType = "email_drafted"
  · exact Or.inl ⟨by simp [suppressedTypes, h3],
      by simp [webhookHandler, henv, hcid, h1, h3]⟩
  by_cases h4 : w.EventType = "email_dropped"
  · exact Or.inl ⟨by simp [suppressedTypes, h4],
      by simp [webhookHandler, henv, hcid, h1, h4]⟩
  by_cases h5 : w.EventType = "email_delivered"
  · exact Or.inl ⟨by simp [suppressedTypes, h5],
      by simp [webhookHandler, henv, hcid, h1, h5]⟩
  by_cases h6 : w.EventType = "email_bounced"
  · exact Or.inr ⟨by simp [suppressedTypes, h6], "Email - email failed",
      by simp [webhookHandler, henv, hcid, h6]⟩
  by_cases h7 : w.EventType = "email_failed"
  · exact Or.inr ⟨by simp [suppressedTypes, h7], "Email - email failed",
      by simp [webhookHandler, henv, hcid, h7]⟩
  by_cases h8 : w.EventType = "email_spammed"
  · exact Or.inr ⟨by simp [suppressedTypes, h8], "Email - email failed",
      by simp [webhookHandler, henv, hcid, h8]⟩
  by_cases h9 : w.EventType = "email_sent"
  · exact Or.inr ⟨by simp [suppressedTypes, h9], "Email - email sent",
      by simp [webhookHandler, henv, hcid, h9]⟩
  by_cases h10 : w.EventType = "email_opened"
  · exact Or.inr ⟨by simp [suppressedTypes, h10], "Email - opened email",
      by simp [webhookHandler, henv, hcid, h10]⟩
  by_cases h11 : w.EventType = "email_clicked"
  · exact Or.inr ⟨by simp [suppressedTypes, h11], "Email - clicked email",
      by simp [webhookHandler, henv, hcid, h11]⟩
  exact Or.inr ⟨by simp [suppressedTypes, h2, h3, h4, h5], w.EventType,
    by simp [webhookHandler, henv, hcid, h1, h2, h3, h4, h5, h6, h7, h8, h9,
      h10, h11]⟩

/-- Helper: inversion — whenever the legacy handler issued an outbound Track
call, the call's userID is the string found at `data.customer_id`, its
properties are the stripped data, its context carries the event id and its
timestamp is the resolved one. -/
theorem webhookHandler_sent_inv
    (config : Config) (env : String) (w : Webhook)
    (fmtUnix : Int → String) (nowRFC3339 : String)
    (sendResult : Except String Unit) (st : Nat) (b : String) (tp : TrackPayload)
    (h : webhookHandler config env (Except.ok (some w)) fmtUnix nowRFC3339 sendResult =
      HandlerResult.response st b (some tp)) :
    lookupKey (deleteKey w.Data "variables") "customer_id" = Json.str tp.UserId
    ∧ tp.Properties = deleteKey w.Data "variables"
    ∧ tp.ContextEventId = w.EventID
    ∧ tp.Timestamp = Webhook.TimestampRFC3339 fmtUnix nowRFC3339 w := by
  rcases henv : config.lookupEnv env with _ | envc
  · simp only [webhookHandler, henv] at h
    simp at h
  rcases hcid : lookupKey (deleteKey w.Data "variables") "customer_id" with
    _ | bb | qq | cid | ar | ob
  case null => simp only [webhookHandler, henv, hcid] at h; simp at h
  case bool => simp only [webhookHandler, henv, hcid] at h; simp at h
  case num => simp only [webhookHandler, henv, hcid] at h; simp at h
  case arr => simp only [webhookHandler, henv, hcid] at h; simp at h
  case obj => simp only [webhookHandler, henv, hcid] at h; simp at h
  case str =>
    rcases webhookHandler_classified config env envc w cid fmtUnix nowRFC3339
        sendResult henv hcid with ⟨_, heq⟩ | ⟨_, evName, heq⟩
    · rw [heq] at h
      simp at h
    · rw [heq] at h
      rcases sendResult with e | u <;>
      · simp only [trackAndRespond, HandlerResult.response.injEq,
          Option.some.injEq] at h
        obtain ⟨hst, hb, htp⟩ := h
        subst htp
        exact ⟨rfl, rfl, rfl, rfl⟩

/-- Helper: the fixed string `1970-01-01T00:00:00Z` is valid RFC 3339 (used
to instantiate formatter hypotheses in witnesses). -/
theorem epoch_string_valid : isRFC3339 "1970-01-01T00:00:00Z" = true := by
  decide

/-- C2: on the legacy `/webhook` route with a known environment, a decoded
payload whose `data.customer_id` is a string, and an `event_type` in the
renaming half of the classifier table, the outbound Track call carries
exactly the table's mapped event name (customer_unsubscribed ↦
"Email - unsubscribed"; email_bounced, email_failed, email_spammed ↦
"Email - email failed"; email_sent ↦ "Email - email sent"; email_opened ↦
"Email - opened email"; email_clicked ↦ "Email - clicked email"). -/
theorem classifier_table_renames_exact
    (config : Config) (env : String) (envConfig : ConfigEnv)
    (w : Webhook) (cid raw mapped : String)
    (fmtUnix : Int → String) (nowRFC3339 : String)
    (henv : config.lookupEnv env = some envConfig)
    (hcid : lookupKey (deleteKey w.Data "variables") "customer_id" = Json.str cid)
    (hmem : (raw, mapped) ∈ renamedTypes)
    (hraw : w.EventType = raw) :
    webhookHandler config env (Except.ok (some w)) fmtUnix nowRFC3339 (Except.ok ()) =
      HandlerResult.response 200 "ok"
        (some ⟨cid, mapped, deleteKey w.Data "variables", w.EventID,
          Webhook.TimestampRFC3339 fmtUnix nowRFC3339 w⟩) := by
  subst hraw
  simp only [renamedTypes, List.mem_cons, List.not_mem_nil, or_false,
    Prod.mk.injEq] at hmem
  rcases hmem with ⟨h1, h2⟩ | ⟨h1, h2⟩ | ⟨h1, h2⟩ | ⟨h1, h2⟩ | ⟨h1, h2⟩ |
    ⟨h1, h2⟩ | ⟨h1, h2⟩ <;>
    subst h2 <;>
    simp [webhookHandler, henv, hcid, trackAndRespond, h1]

/-- C2 witness: a concrete `email_bounced` payload is forwarded as
"Email - email failed". -/
theorem classifier_table_renames_exact_witness :
    webhookHandler ⟨[("prod", ⟨"k"⟩)]⟩ "prod"
        (Except.ok (some ⟨none, "email_bounced", "ev1", none, none,
          [("customer_id", Json.str "u1")]⟩))
        (fun _ => "TS") "NOW" (Except.ok ()) =
      HandlerResult.response 200 "ok"
        (some ⟨"u1", "Email - email failed",
          [("customer_id", Json.str "u1")], "ev1", "NOW"⟩) :=
  classifier_table_renames_exact ⟨[("prod", ⟨"k"⟩)]⟩ "prod" ⟨"k"⟩
    ⟨none, "email_bounced", "ev1", none, none, [("customer_id", Json.str "u1")]⟩
    "u1" "email_bounced" "Email - email failed" (fun _ => "TS") "NOW"
    rfl rfl (by decide) rfl

/-- C7: timestamp resolution order on the decoded payload — the numeric epoch
field wins when present (independent of the ISO field), otherwise a present
ISO string passes through unchanged, otherwise the current wall-clock string
is used. -/
theorem timestamp_resolution_order
    (fmtUnix : Int → String) (nowRFC3339 : String) (w : Webhook) :
    (∀ ts, w.TimestampNil = some ts →
      Webhook.TimestampRFC3339 fmtUnix nowRFC3339 w = fmtUnix ts)
    ∧ (∀ iso, w.TimestampNil = none → w.TimestampIsoNil = some iso →
      Webhook.TimestampRFC3339 fmtUnix nowRFC3339 w = iso)
    ∧ (w.TimestampNil = none → w.TimestampIsoNil = none →
      Webhook.TimestampRFC3339 fmtUnix nowRFC3339 w = nowRFC3339) := by
  refine ⟨?_, ?_, ?_⟩ <;> intros <;> simp_all [Webhook.TimestampRFC3339]

/-- C7 witness: the three branches on concrete payloads — epoch wins even
with the ISO field set, the ISO string passes through, and with neither field
the wall-clock string is used. -/
theorem timestamp_resolution_order_witness :
    Webhook.TimestampRFC3339 (fun _ => "TS") "NOW"
        ⟨none, "t", "e", some 5, some "iso", []⟩ = "TS"
    ∧ Webhook.TimestampRFC3339 (fun _ => "TS") "NOW"
        ⟨none, "t", "e", none, some "iso", []⟩ = "iso"
    ∧ Webhook.TimestampRFC3339 (fun _ => "TS") "NOW"
        ⟨none, "t", "e", none, none, []⟩ = "NOW" :=
  ⟨(timestamp_resolution_order (fun _ => "TS") "NOW"
      ⟨none, "t", "e", some 5, some "iso", []⟩).1 5 rfl,
   (timestamp_resolution_order (fun _ => "TS") "NOW"
      ⟨none, "t", "e", none, some "iso", []⟩).2.1 "iso" rfl rfl,
   (timestamp_resolution_order (fun _ => "TS") "NOW"
      ⟨none, "t", "e", none, none, []⟩).2.2 rfl rfl⟩

/-- C8: the `/webhook/track` route (the generic `handle` with the Track
action) forwards any successfully decoded payload directly and answers 200
"ok"; no event-type suppression is applied, so this holds for every payload,
including one whose event name is a suppressed type. -/
theorem track_route_forwards_directly
    (config : Config) (env : String) (envConfig : ConfigEnv)
    (payload : AnalyticsTrack)
    (henv : config.lookupEnv env = some envConfig) :
    handle config env (Except.ok payload) (Except.ok ()) =
      ⟨200, "ok", some payload⟩ := by
  simp [handle, henv]

/-- C8 witness: a Track body whose event name is the suppressed type
`email_delivered` is still forwarded on `/webhook/track`. -/
theorem track_route_forwards_directly_witness :
    handle ⟨[("prod", ⟨"k"⟩)]⟩ "prod"
        (Except.ok (⟨"u1", "email_delivered", []⟩ : AnalyticsTrack))
        (Except.ok ()) =
      ⟨200, "ok", some ⟨"u1", "email_delivered", []⟩⟩ :=
  track_route_forwards_directly ⟨[("prod", ⟨"k"⟩)]⟩ "prod" ⟨"k"⟩
    ⟨"u1", "email_delivered", []⟩ rfl

/-- C10: the `data.customer_id` presence check runs before event-type
classification — a decoded payload with a suppressed `event_type` but an
absent-or-null `data.customer_id` is answered 406, not 200. -/
theorem customer_id_check_precedes_classification
    (config : Config) (env : String) (envConfig : ConfigEnv) (w : Webhook)
    (fmtUnix : Int → String) (nowRFC3339 : String)
    (sendResult : Except String Unit)
    (henv : config.lookupEnv env = some envConfig)
    (hnull : lookupKey (deleteKey w.Data "variables") "customer_id" = Json.null)
    (hsupp : w.EventType ∈ suppressedTypes) :
    webhookHandler config env (Except.ok (some w)) fmtUnix nowRFC3339 sendResult =
      HandlerResult.response 406 "data.customer_id is nil" none := by
  clear hsupp
  simp [webhookHandler, henv, hnull]

/-- C10 witness: a concrete `email_delivered` payload without
`data.customer_id` is answered 406. -/
theorem customer_id_check_precedes_classification_witness :
    webhookHandler ⟨[("prod", ⟨"k"⟩)]⟩ "prod"
        (Except.ok (some ⟨none, "email_delivered", "ev1", none, none, []⟩))
        (fun _ => "TS") "NOW" (Except.ok ()) =
      HandlerResult.response 406 "data.customer_id is nil" none :=
  customer_id_check_precedes_classification ⟨[("prod", ⟨"k"⟩)]⟩ "prod" ⟨"k"⟩
    ⟨none, "email_delivered", "ev1", none, none, []⟩
    (fun _ => "TS") "NOW" (Except.ok ()) rfl rfl (by decide)

/-- C1 counterexample: an unknown event type (`custom_evt`, with the event
source explicitly `src`) is forwarded with the raw event type as the event
name, which differs from the source-and-type-joined name the claim states. -/
theorem unknown_event_type_not_source_joined :
    webhookHandler ⟨[("prod", ⟨"k"⟩)]⟩ "prod"
        (Except.ok (some ⟨some "src", "custom_evt", "ev1", none, none,
          [("customer_id", Json.str "u1")]⟩))
        (fun _ => "TS") "NOW" (Except.ok ()) =
      HandlerResult.response 200 "ok"
        (some ⟨"u1", "custom_evt", [("customer_id", Json.str "u1")], "ev1", "NOW"⟩)
    ∧ Webhook.EventSource ⟨some "src", "custom_evt", "ev1", none, none,
        [("customer_id", Json.str "u1")]⟩ = "src"
    ∧ ("custom_evt" : String) ≠ "src" ++ ":" ++ "custom_evt" :=
  ⟨rfl, rfl, by decide⟩

/-- C1 amended: for an unknown event type on the legacy route, the outbound
event name is the raw event type unchanged; the event source is not
incorporated into the name. -/
theorem unknown_event_type_forwarded_raw
    (config : Config) (env : String) (envConfig : ConfigEnv)
    (w : Webhook) (cid : String)
    (fmtUnix : Int → String) (nowRFC3339 : String)
    (henv : config.lookupEnv env = some envConfig)
    (hcid : lookupKey (deleteKey w.Data "variables") "customer_id" = Json.str cid)
    (hunknown : w.EventType ∉ classifiedTypes) :
    webhookHandler config env (Except.ok (some w)) fmtUnix nowRFC3339 (Except.ok ()) =
      HandlerResult.response 200 "ok"
        (some ⟨cid, w.EventType, deleteKey w.Data "variables", w.EventID,
          Webhook.TimestampRFC3339 fmtUnix nowRFC3339 w⟩) := by
  simp only [classifiedTypes, List.mem_cons, List.not_mem_nil, or_false,
    not_or] at hunknown
  obtain ⟨n1, n2, n3, n4, n5, n6, n7, n8, n9, n10, n11⟩ := hunknown
  simp [webhookHandler, henv, hcid, trackAndRespond,
    n1, n2, n3, n4, n5, n6, n7, n8, n9, n10, n11]

/-- C1 amended witness: the concrete unknown type `custom_evt` is forwarded
with event name `custom_evt`. -/
theorem unknown_event_type_forwarded_raw_witness :
    webhookHandler ⟨[("prod", ⟨"k"⟩)]⟩ "prod"
        (Except.ok (some ⟨some "src", "custom_evt", "ev1", none, none,
          [("customer_id", Json.str "u1")]⟩))
        (fun _ => "TS") "NOW" (Except.ok ()) =
      HandlerResult.response 200 "ok"
        (some ⟨"u1", "custom_evt", [("customer_id", Json.str "u1")], "ev1", "NOW"⟩) :=
  unknown_event_type_forwarded_raw ⟨[("prod", ⟨"k"⟩)]⟩ "prod" ⟨"k"⟩
    ⟨some "src", "custom_evt", "ev1", none, none, [("customer_id", Json.str "u1")]⟩
    "u1" (fun _ => "TS") "NOW" rfl rfl (by decide)

/-- C3 counterexample: a payload that decodes successfully with the
suppressed type `email_delivered` but no `data.customer_id` is answered 406,
not the 200 "ok" the claim states for every successfully decoded suppressed
payload. -/
theorem suppressed_missing_customer_id_406 :
    webhookHandler ⟨[("prod", ⟨"k"⟩)]⟩ "prod"
        (Except.ok (some ⟨none, "email_delivered", "ev1", none, none, []⟩))
        (fun _ => "TS") "NOW" (Except.ok ()) =
      HandlerResult.response 406 "data.customer_id is nil" none
    ∧ (406 : Nat) ≠ 200 :=
  ⟨rfl, by decide⟩

/-- C3 amended: a successfully decoded payload whose `event_type` is
suppressed (email_converted, email_drafted, email_dropped, email_delivered)
*and* whose `data.customer_id` is a string is answered 200 "ok" with no
outbound call, whatever the downstream send would have returned. -/
theorem suppressed_types_ack_no_send
    (config : Config) (env : String) (envConfig : ConfigEnv)
    (w : Webhook) (cid : String)
    (fmtUnix : Int → String) (nowRFC3339 : String)
    (sendResult : Except String Unit)
    (henv : config.lookupEnv env = some envConfig)
    (hcid : lookupKey (deleteKey w.Data "variables") "customer_id" = Json.str cid)
    (hsupp : w.EventType ∈ suppressedTypes) :
    webhookHandler config env (Except.ok (some w)) fmtUnix nowRFC3339 sendResult =
      HandlerResult.response 200 "ok" none := by
  simp only [suppressedTypes, List.mem_cons, List.not_mem_nil, or_false] at hsupp
  rcases hsupp with h | h | h | h <;>
    simp [webhookHandler, henv, hcid, h]

/-- C3 amended witness: the spec's scenario body
`{"event_type":"email_delivered","data":{"customer_id":"u1"}}` yields 200
"ok" with no outbound call. -/
theorem suppressed_types_ack_no_send_witness :
    webhookHandler ⟨[("prod", ⟨"k"⟩)]⟩ "prod"
        (Except.ok (some ⟨none, "email_delivered", "ev1", none, none,
          [("customer_id", Json.str "u1")]⟩))
        (fun _ => "TS") "NOW" (Except.ok ()) =
      HandlerResult.response 200 "ok" none :=
  suppressed_types_ack_no_send ⟨[("prod", ⟨"k"⟩)]⟩ "prod" ⟨"k"⟩
    ⟨none, "email_delivered", "ev1", none, none, [("customer_id", Json.str "u1")]⟩
    "u1" (fun _ => "TS") "NOW" (Except.ok ()) rfl rfl (by decide)

/-- C5 counterexample: the handler only checks `data.customer_id` against
nil, not against emptiness — a payload whose `customer_id` is the empty
string is forwarded, producing an outbound call whose userID is empty. -/
theorem empty_customer_id_forwarded :
    webhookHandler ⟨[("prod", ⟨"k"⟩)]⟩ "prod"
        (Except.ok (some ⟨none, "custom_evt", "ev1", none, none,
          [("customer_id", Json.str "")]⟩))
        (fun _ => "TS") "NOW" (Except.ok ()) =
      HandlerResult.response 200 "ok"
        (some ⟨"", "custom_evt", [("customer_id", Json.str "")], "ev1", "NOW"⟩)
    ∧ TrackPayload.UserId
        ⟨"", "custom_evt", [("customer_id", Json.str "")], "ev1", "NOW"⟩ = "" :=
  ⟨rfl, rfl⟩

/-- C5 amended: every outbound event sent by the legacy route carries as its
userID exactly the string found at `data.customer_id`, which is validated to
be present and non-null before forwarding — but not to be non-empty. -/
theorem outbound_userid_eq_customer_id
    (config : Config) (env : String) (w : Webhook)
    (fmtUnix : Int → String) (nowRFC3339 : String)
    (sendResult : Except String Unit) (st : Nat) (b : String) (tp : TrackPayload)
    (h : webhookHandler config env (Except.ok (some w)) fmtUnix nowRFC3339 sendResult =
      HandlerResult.response st b (some tp)) :
    lookupKey (deleteKey w.Data "variables") "customer_id" = Json.str tp.UserId :=
  (webhookHandler_sent_inv config env w fmtUnix nowRFC3339 sendResult st b tp h).1

/-- C5 amended witness: at the concrete empty-string payload the outbound
userID is the (empty) `data.customer_id` string. -/
theorem outbound_userid_eq_customer_id_witness :
    lookupKey (deleteKey [("customer_id", Json.str "")] "variables") "customer_id" =
      Json.str (TrackPayload.UserId
        ⟨"", "custom_evt", [("customer_id", Json.str "")], "ev1", "NOW"⟩) :=
  outbound_userid_eq_customer_id ⟨[("prod", ⟨"k"⟩)]⟩ "prod"
    ⟨none, "custom_evt", "ev1", none, none, [("customer_id", Json.str "")]⟩
    (fun _ => "TS") "NOW" (Except.ok ()) 200 "ok"
    ⟨"", "custom_evt", [("customer_id", Json.str "")], "ev1", "NOW"⟩ rfl

/-- C9: every outbound event sent by the legacy route has properties without
the `variables` key — the key is deleted from `data` right after decode,
before any forwarding. -/
theorem variables_key_stripped
    (config : Config) (env : String) (w : Webhook)
    (fmtUnix : Int → String) (nowRFC3339 : String)
    (sendResult : Except String Unit) (st : Nat) (b : String) (tp : TrackPayload)
    (h : webhookHandler config env (Except.ok (some w)) fmtUnix nowRFC3339 sendResult =
      HandlerResult.response st b (some tp)) :
    ∀ p ∈ tp.Properties, p.1 ≠ "variables" := by
  have hprops : tp.Properties = deleteKey w.Data "variables" :=
    (webhookHandler_sent_inv config env w fmtUnix nowRFC3339 sendResult st b tp h).2.1
  intro p hp
  rw [hprops] at hp
  simp only [deleteKey, List.mem_filter, bne_iff_ne, ne_eq] at hp
  exact hp.2

/-- C9 witness: a payload carrying a `variables` key under `data` is
forwarded with properties from which the key is gone; its surviving entry is
not `variables`. -/
theorem variables_key_stripped_witness :
    ("customer_id", Json.str "u1").1 ≠ "variables" :=
  variables_key_stripped ⟨[("prod", ⟨"k"⟩)]⟩ "prod"
    ⟨none, "custom_evt", "ev1", none, none,
      [("variables", Json.str "secret"), ("customer_id", Json.str "u1")]⟩
    (fun _ => "TS") "NOW" (Except.ok ()) 200 "ok"
    ⟨"u1", "custom_evt", [("customer_id", Json.str "u1")], "ev1", "NOW"⟩ rfl
    ("customer_id", Json.str "u1") (List.mem_cons_self _ _)

/-- C6 counterexample: a present `timestamp_iso` string passes through
unvalidated — the string `boom` is not valid RFC 3339 yet becomes the
outbound timestamp verbatim. -/
theorem iso_timestamp_not_validated :
    Webhook.TimestampRFC3339 (fun _ => "1970-01-01T00:00:00Z")
        "1970-01-01T00:00:00Z" ⟨none, "t", "e", none, some "boom", []⟩ = "boom"
    ∧ isRFC3339 "boom" = false :=
  ⟨rfl, by decide⟩

/-- C6 amended: the resolved timestamp is a valid RFC3339 string whenever the
library formatters only produce valid RFC3339 strings and the payload does
not take the ISO passthrough branch (i.e. the epoch field is present, or
neither timestamp field is); a present ISO string with no epoch field passes
through unvalidated. -/
theorem timestamp_valid_unless_iso_passthrough
    (fmtUnix : Int → String) (nowRFC3339 : String) (w : Webhook)
    (hf : ∀ ts, isRFC3339 (fmtUnix ts) = true)
    (hn : isRFC3339 nowRFC3339 = true)
    (hbranch : w.TimestampNil ≠ none ∨ w.TimestampIsoNil = none) :
    isRFC3339 (Webhook.TimestampRFC3339 fmtUnix nowRFC3339 w) = true := by
  rcases hw : w.TimestampNil with _ | ts
  · rcases hiso : w.TimestampIsoNil with _ | iso
    · simp [Webhook.TimestampRFC3339, hw, hiso, hn]
    · rcases hbranch with hb | hb
      · exact absurd hw hb
      · rw [hiso] at hb
        exact Option.noConfusion hb
  · simp [Webhook.TimestampRFC3339, hw, hf]

/-- C6 amended witness: with an epoch field present and a valid-RFC3339
formatter, the resolved timestamp is valid even though an (invalid) ISO
string is also present. -/
theorem timestamp_valid_unless_iso_passthrough_witness :
    isRFC3339 (Webhook.TimestampRFC3339 (fun _ => "1970-01-01T00:00:00Z")
      "1970-01-01T00:00:00Z" ⟨none, "t", "e", some 5, some "boom", []⟩) = true :=
  timestamp_valid_unless_iso_passthrough (fun _ => "1970-01-01T00:00:00Z")
    "1970-01-01T00:00:00Z" ⟨none, "t", "e", some 5, some "boom", []⟩
    (fun _ => epoch_string_valid) epoch_string_valid (Or.inl (by decide))

/-- C4 counterexample: a request with a known environment, a successfully
decoded body, a present non-null (but non-string) `data.customer_id`, and a
downstream send that would succeed, falls in the claim's "otherwise" bucket —
yet the handler panics on the failed `.(string)` type assertion and produces
no HTTP response at all, let alone 200 "ok". -/
theorem nonstring_customer_id_panics :
    webhookHandler ⟨[("prod", ⟨"k"⟩)]⟩ "prod"
        (Except.ok (some ⟨none, "custom_evt", "ev1", none, none,
          [("customer_id", Json.num 5)]⟩))
        (fun _ => "TS") "NOW" (Except.ok ()) =
      HandlerResult.panicked "interface conversion: interface is not string"
    ∧ HandlerResult.statusBody
        (webhookHandler ⟨[("prod", ⟨"k"⟩)]⟩ "prod"
          (Except.ok (some ⟨none, "custom_evt", "ev1", none, none,
            [("customer_id", Json.num 5)]⟩))
          (fun _ => "TS") "NOW" (Except.ok ())) = none :=
  ⟨rfl, rfl⟩

/-- C4 amended: per-route error handling. Unknown environment → 400 with a
message naming the environment (both the legacy handler and the generic
`handle` of the identify/track routes); decode failure → 406 "bad request";
absent-or-null `data.customer_id` on the legacy route → 406; downstream send
failure → 500 with a message including the underlying error; otherwise → 200
"ok" — provided, on the legacy route, that the decoded payload is non-null
and `data.customer_id` decodes as a string: a null payload or a non-string
`customer_id` (e.g. a number) makes the handler panic instead of responding. -/
theorem error_handling_branches
    (config : Config) (env : String) (envConfig : ConfigEnv) (α : Type)
    (decoded : Except Unit (Option Webhook)) (decodedA : Except Unit α)
    (payload : α) (w : Webhook) (cid e : String) (q : Int)
    (fmtUnix : Int → String) (nowRFC3339 : String)
    (sendResult : Except String Unit) :
    (config.lookupEnv env = none →
      webhookHandler config env decoded fmtUnix nowRFC3339 sendResult =
        HandlerResult.response 400
          ("Environment " ++ goQuote env ++ " does not exist") none)
    ∧ (config.lookupEnv env = none →
      handle config env decodedA sendResult =
        ⟨400, "Environment " ++ goQuote env ++ " does not exist", none⟩)
    ∧ (config.lookupEnv env = some envConfig →
      webhookHandler config env (Except.error ()) fmtUnix nowRFC3339 sendResult =
        HandlerResult.response 406 "bad request" none)
    ∧ (config.lookupEnv env = some envConfig →
      handle config env (Except.error () : Except Unit α) sendResult =
        ⟨406, "bad request", none⟩)
    ∧ (config.lookupEnv env = some envConfig →
      lookupKey (deleteKey w.Data "variables") "customer_id" = Json.null →
      webhookHandler config env (Except.ok (some w)) fmtUnix nowRFC3339 sendResult =
        HandlerResult.response 406 "data.customer_id is nil" none)
    ∧ (config.lookupEnv env = some envConfig →
      lookupKey (deleteKey w.Data "variables") "customer_id" = Json.str cid →
      w.EventType ∉ suppressedTypes →
      HandlerResult.statusBody
        (webhookHandler config env (Except.ok (some w)) fmtUnix nowRFC3339
          (Except.error e)) = some (500, "segment.Track failed: " ++ e))
    ∧ (config.lookupEnv env = some envConfig →
      handle config env (Except.ok payload) (Except.error e) =
        ⟨500, "action.Send failed: " ++ e, some payload⟩)
    ∧ (config.lookupEnv env = some envConfig →
      lookupKey (deleteKey w.Data "variables") "customer_id" = Json.str cid →
      HandlerResult.statusBody
        (webhookHandler config env (Except.ok (some w)) fmtUnix nowRFC3339
          (Except.ok ())) = some (200, "ok"))
    ∧ (config.lookupEnv env = some envConfig →
      handle config env (Except.ok payload) (Except.ok ()) =
        ⟨200, "ok", some payload⟩)
    ∧ (config.lookupEnv env = some envConfig →
      webhookHandler config env (Except.ok none) fmtUnix nowRFC3339 sendResult =
        HandlerResult.panicked "invalid memory address or nil pointer dereference")
    ∧ (config.lookupEnv env = some envConfig →
      lookupKey (deleteKey w.Data "variables") "customer_id" = Json.num q →
      webhookHandler config env (Except.ok (some w)) fmtUnix nowRFC3339 sendResult =
        HandlerResult.panicked "interface conversion: interface is not string") := by
  refine ⟨?_, ?_, ?_, ?_, ?_, ?_, ?_, ?_, ?_, ?_, ?_⟩
  · intro henv
    simp [webhookHandler, henv]
  · intro henv
    simp [handle, henv]
  · intro henv
    simp [webhookHandler, henv]
  · intro henv
    simp [handle, henv]
  · intro henv hnull
    simp [webhookHandler, henv, hnull]
  · intro henv hcid hns
    rcases webhookHandler_classified config env envConfig w cid fmtUnix
        nowRFC3339 (Except.error e) henv hcid with ⟨hs, heq⟩ | ⟨_, evName, heq⟩
    · exact absurd hs hns
    · rw [heq]
      rfl
  · intro henv
    simp [handle, henv]
  · intro henv hcid
    rcases webhookHandler_classified config env envConfig w cid fmtUnix
        nowRFC3339 (Except.ok ()) henv hcid with ⟨_, heq⟩ | ⟨_, evName, heq⟩ <;>
      rw [heq] <;> rfl
  · intro henv
    simp [handle, henv]
  · intro henv
    simp [webhookHandler, henv]
  · intro henv hnum
    simp [webhookHandler, henv, hnum]

/-- C4 amended witness: the branches at concrete requests — unknown
environment "missing" → 400 naming it; decode failure → 406 "bad request";
missing `customer_id` → 406; failing send → 500 with the error; success →
200 "ok"; null payload and numeric `customer_id` → panic. -/
theorem error_handling_branches_witness :
    webhookHandler ⟨[]⟩ "missing" (Except.error ()) (fun _ => "TS") "NOW"
        (Except.ok ()) =
      HandlerResult.response 400
        ("Environment " ++ goQuote "missing" ++ " does not exist") none
    ∧ handle ⟨[]⟩ "missing" (Except.error () : Except Unit Unit) (Except.ok ()) =
      ⟨400, "Environment " ++ goQuote "missing" ++ " does not exist", none⟩
    ∧ webhookHandler ⟨[("prod", ⟨"k"⟩)]⟩ "prod" (Except.error ())
        (fun _ => "TS") "NOW" (Except.ok ()) =
      HandlerResult.response 406 "bad request" none
    ∧ handle ⟨[("prod", ⟨"k"⟩)]⟩ "prod" (Except.error () : Except Unit Unit)
        (Except.ok ()) =
      ⟨406, "bad request", none⟩
    ∧ webhookHandler ⟨[("prod", ⟨"k"⟩)]⟩ "prod"
        (Except.ok (some ⟨none, "custom_evt", "ev1", none, none, []⟩))
        (fun _ => "TS") "NOW" (Except.ok ()) =
      HandlerResult.response 406 "data.customer_id is nil" none
    ∧ HandlerResult.statusBody (webhookHandler ⟨[("prod", ⟨"k"⟩)]⟩ "prod"
        (Except.ok (some ⟨none, "custom_evt", "ev1", none, none,
          [("customer_id", Json.str "u1")]⟩))
        (fun _ => "TS") "NOW" (Except.error "boom")) =
      some (500, "segment.Track failed: " ++ "boom")
    ∧ handle ⟨[("prod", ⟨"k"⟩)]⟩ "prod" (Except.ok ()) (Except.error "boom") =
      (⟨500, "action.Send failed: " ++ "boom", some ()⟩ : HandleOutcome Unit)
    ∧ HandlerResult.statusBody (webhookHandler ⟨[("prod", ⟨"k"⟩)]⟩ "prod"
        (Except.ok (some ⟨none, "custom_evt", "ev1", none, none,
          [("customer_id", Json.str "u1")]⟩))
        (fun _ => "TS") "NOW" (Except.ok ())) = some (200, "ok")
    ∧ handle ⟨[("prod", ⟨"k"⟩)]⟩ "prod" (Except.ok ()) (Except.ok ()) =
      (⟨200, "ok", some ()⟩ : HandleOutcome Unit)
    ∧ webhookHandler ⟨[("prod", ⟨"k"⟩)]⟩ "prod" (Except.ok none)
        (fun _ => "TS") "NOW" (Except.ok ()) =
      HandlerResult.panicked "invalid memory address or nil pointer dereference"
    ∧ webhookHandler ⟨[("prod", ⟨"k"⟩)]⟩ "prod"
        (Except.ok (some ⟨none, "custom_evt", "ev1", none, none,
          [("customer_id", Json.num 5)]⟩))
        (fun _ => "TS") "NOW" (Except.ok ()) =
      HandlerResult.panicked "interface conversion: interface is not string" := by
  have Hmiss := error_handling_branches ⟨[]⟩ "missing" ⟨"k"⟩ Unit
    (Except.error ()) (Except.error ()) ()
    ⟨none, "custom_evt", "ev1", none, none, []⟩ "u1" "boom" 5
    (fun _ => "TS") "NOW" (Except.ok ())
  have Hnull := error_handling_branches ⟨[("prod", ⟨"k"⟩)]⟩ "prod" ⟨"k"⟩ Unit
    (Except.error ()) (Except.error ()) ()
    ⟨none, "custom_evt", "ev1", none, none, []⟩ "u1" "boom" 5
    (fun _ => "TS") "NOW" (Except.ok ())
  have Hstr := error_handling_branches ⟨[("prod", ⟨"k"⟩)]⟩ "prod" ⟨"k"⟩ Unit
    (Except.error ()) (Except.error ()) ()
    ⟨none, "custom_evt", "ev1", none, none, [("customer_id", Json.str "u1")]⟩
    "u1" "boom" 5 (fun _ => "TS") "NOW" (Except.ok ())
  have Hnum := error_handling_branches ⟨[("prod", ⟨"k"⟩)]⟩ "prod" ⟨"k"⟩ Unit
    (Except.error ()) (Except.error ()) ()
    ⟨none, "custom_evt", "ev1", none, none, [("customer_id", Json.num 5)]⟩
    "u1" "boom" 5 (fun _ => "TS") "NOW" (Except.ok ())
  refine ⟨Hmiss.1 rfl, Hmiss.2.1 rfl, Hnull.2.2.1 rfl, Hnull.2.2.2.1 rfl,
    Hnull.2.2.2.2.1 rfl rfl,
    Hstr.2.2.2.2.2.1 rfl rfl (by decide),
    Hnull.2.2.2.2.2.2.1 rfl,
    Hstr.2.2.2.2.2.2.2.1 rfl rfl,
    Hnull.2.2.2.2.2.2.2.2.1 rfl,
    Hnull.2.2.2.2.2.2.2.2.2.1 rfl,
    Hnum.2.2.2.2.2.2.2.2.2.2 rfl rfl⟩

end RouteToSegment
